import Mathlib

/-!
Verification of the school-portal client-side JavaScript
(chat polling widget, drawing canvas, push service worker),
shallowly embedded from the sources.
-/

/-- A chat message as returned by the poll endpoint
(`/api/poll_messages`): fields `text`, `from_student`, `timestamp`. -/
structure Message where
  text : String
  from_student : Bool
  timestamp : String
deriving Repr, DecidableEq

/-- Direction of a transcript bubble, from the CSS class chosen in
`addMessage` (part_000, line 113): `sent` or `received`. -/
inductive Direction where
  | sent
  | received
deriving Repr, DecidableEq

/-- One transcript bubble appended by `addMessage` (part_000, lines 108-124):
the raw message text, the direction, and the timestamp passed
(`null` for optimistic sends, the server timestamp for polled messages). -/
structure Bubble where
  text : String
  dir : Direction
  timestamp : Option String
deriving Repr, DecidableEq

/-- A toast notification produced by `showToast` (part_000, lines 9-31):
title, message and style type. -/
structure Toast where
  title : String
  message : String
  typ : String
deriving Repr, DecidableEq

/-- The chat client state of part_000: the poll cursor `since`
(startPolling, line 130), the transcript bubbles in the messages
container, the content of the message input field, whether the poll
interval handle `pollInterval` is registered (line 37), the interval
period handed to `setInterval` (line 158), the arguments of calls to
`window.onNewMessageReceived` (line 149), the toasts shown, and the
number of `console.error` logs from the polling catch (line 156). -/
structure ChatState where
  since : String
  transcript : List Bubble
  inputValue : String
  pollActive : Bool
  intervalMs : Nat
  notified : List (String × String)
  toasts : List Toast
  logs : Nat
deriving Repr, DecidableEq

/-- Processing of one polled message inside the `forEach` of
`startPolling` (part_000, lines 143-153): if `from_student` is false,
append a received bubble and invoke the notification callback when
registered; in all cases set `since` to the message timestamp. -/
def pollProcessMessage (teacherId : String) (cbRegistered : Bool)
    (st : ChatState) (msg : Message) : ChatState :=
  let st1 :=
    if msg.from_student = false then
      { st with
        transcript := st.transcript ++ [⟨msg.text, Direction.received, some msg.timestamp⟩],
        notified := if cbRegistered then st.notified ++ [(msg.text, teacherId)] else st.notified }
    else st
  { st1 with since := msg.timestamp }

/-- Outcome of one poll tick's network interaction: `failure` when the
fetch or `response.json()` throws, `success msgs` when a well-formed
response arrives with message list `msgs` (an absent `messages` field is
the empty list). -/
inductive PollOutcome where
  | failure
  | success (messages : List Message)
deriving Repr, DecidableEq

/-- The body of the `setInterval` callback in `startPolling`
(part_000, lines 132-158): on failure the error is logged and swallowed;
on success a non-empty message list is folded through
`pollProcessMessage`, an empty one is ignored. -/
def pollTick (teacherId : String) (cbRegistered : Bool)
    (st : ChatState) (o : PollOutcome) : ChatState :=
  match o with
  | PollOutcome.failure => { st with logs := st.logs + 1 }
  | PollOutcome.success msgs =>
      if msgs.length > 0 then
        msgs.foldl (pollProcessMessage teacherId cbRegistered) st
      else st

/-- The received bubble built for a polled teacher message
(addMessage with isSent = false and the message timestamp). -/
def receivedBubble (msg : Message) : Bubble :=
  ⟨msg.text, Direction.received, some msg.timestamp⟩

/-- Messages of a poll response that the client renders: exactly those
with `from_student` false (part_000, line 144). -/
def teacherMessages (msgs : List Message) : List Message :=
  msgs.filter (fun m => m.from_student = false)

theorem timestamps_getLast (rest : List Message) :
    ∀ (m : Message) (d : String),
      (m.timestamp :: List.map Message.timestamp rest).getLast?.getD d =
        (rest.getLast?.getD m).timestamp := by
  induction rest with
  | nil => intro m d; simp
  | cons b t ih =>
      intro m d
      simp only [List.map_cons, List.getLast?_cons_cons]
      have h1 : (b :: t).getLast?.getD m = t.getLast?.getD b := by
        rw [← List.getLastD_eq_getLast?, ← List.getLastD_eq_getLast?, List.getLastD_cons]
      rw [h1, ih b d]

theorem pollFold_spec (teacherId : String) (cb : Bool) :
    ∀ (msgs : List Message) (st : ChatState),
      (msgs.foldl (pollProcessMessage teacherId cb) st) =
        { st with
          transcript := st.transcript ++ (teacherMessages msgs).map receivedBubble,
          notified := if cb then
              st.notified ++ (teacherMessages msgs).map (fun m => (m.text, teacherId))
            else st.notified,
          since := (msgs.map Message.timestamp).getLastD st.since } := by
  intro msgs
  induction msgs with
  | nil =>
      intro st
      simp [teacherMessages]
  | cons m rest ih =>
      intro st
      simp only [List.foldl_cons, ih]
      by_cases hm : m.from_student = false
      · by_cases hcb : cb = true
        · simp [pollProcessMessage, teacherMessages, receivedBubble, hm, hcb,
            List.getLastD_cons, timestamps_getLast]
        · simp [pollProcessMessage, teacherMessages, receivedBubble, hm, hcb,
            List.getLastD_cons, timestamps_getLast]
      · simp [pollProcessMessage, teacherMessages, receivedBubble, hm,
          List.getLastD_cons, timestamps_getLast]

/-- C1: For every poll tick whose response contains a non-empty message
list, exactly the messages with `from_student` false are appended to the
transcript as received bubbles (and reported to the notification
callback when one is registered), while the cursor `since` is advanced
through every returned message, ending at the last returned message's
timestamp. -/
theorem claim_C1 (teacherId : String) (cb : Bool) (st : ChatState)
    (msgs : List Message) (hne : msgs ≠ []) :
    (pollTick teacherId cb st (PollOutcome.success msgs)).transcript =
        st.transcript ++ (teacherMessages msgs).map receivedBubble ∧
    (pollTick teacherId cb st (PollOutcome.success msgs)).notified =
        (if cb = true then
          st.notified ++ (teacherMessages msgs).map (fun m => (m.text, teacherId))
        else st.notified) ∧
    (pollTick teacherId cb st (PollOutcome.success msgs)).since =
        (msgs.getLast hne).timestamp := by
  have hlen : msgs.length > 0 := List.length_pos.mpr hne
  simp only [pollTick, if_pos hlen, pollFold_spec]
  refine ⟨trivial, trivial, ?_⟩
  rw [List.getLastD_eq_getLast?, List.getLast?_map, List.getLast?_eq_getLast _ hne]
  rfl

/-- Witness for C1 at the response of the claim:
`[{t:"10:00",from_student:false}, {t:"10:01",from_student:true}]` yields
exactly one received bubble (the first message's text) and leaves the
cursor at `"10:01"`. -/
theorem claim_C1_witness :
    (pollTick "T1" true ⟨"", [], "", true, 3000, [], [], 0⟩
        (PollOutcome.success
          [⟨"hello", false, "10:00"⟩, ⟨"mine", true, "10:01"⟩])).transcript =
      [⟨"hello", Direction.received, some "10:00"⟩] ∧
    (pollTick "T1" true ⟨"", [], "", true, 3000, [], [], 0⟩
        (PollOutcome.success
          [⟨"hello", false, "10:00"⟩, ⟨"mine", true, "10:01"⟩])).since = "10:01" := by
  have h := claim_C1 "T1" true ⟨"", [], "", true, 3000, [], [], 0⟩
    [⟨"hello", false, "10:00"⟩, ⟨"mine", true, "10:01"⟩] (by decide)
  exact ⟨h.1.trans (by rfl), h.2.2.trans (by rfl)⟩

/-- Lexicographic comparison of code-point lists, the order JS string
comparison induces on the ASCII timestamps used by the chat protocol. -/
def codeLt : List Nat → List Nat → Bool
  | [], [] => false
  | [], _ :: _ => true
  | _ :: _, [] => false
  | a :: as, b :: bs => if a < b then true else if b < a then false else codeLt as bs

/-- JS-style string comparison on code points. -/
def strLtB (a b : String) : Bool :=
  codeLt (a.toList.map Char.toNat) (b.toList.map Char.toNat)

/-- The maximum timestamp of a poll response, for comparison with the
cursor actually kept by the code (which is the last element's). -/
def maxTimestamp (msgs : List Message) : String :=
  (msgs.map Message.timestamp).foldl (fun a b => if strLtB a b then b else a) ""

/-- C4: after a successful tick with a non-empty message list, the
cursor equals the timestamp of the last array element — and, on the
out-of-order response `[{t:"10:05"}, {t:"10:01"}]`, that differs from
the maximum timestamp of the array. -/
theorem claim_C4 (teacherId : String) (cb : Bool) (st : ChatState)
    (msgs : List Message) (hne : msgs ≠ []) :
    (pollTick teacherId cb st (PollOutcome.success msgs)).since =
        (msgs.getLast hne).timestamp ∧
    (pollTick "T1" false ⟨"", [], "", true, 3000, [], [], 0⟩
        (PollOutcome.success
          [⟨"a", true, "10:05"⟩, ⟨"b", true, "10:01"⟩])).since = "10:01" ∧
    maxTimestamp [⟨"a", true, "10:05"⟩, ⟨"b", true, "10:01"⟩] = "10:05" ∧
    ("10:01" : String) ≠ "10:05" := by
  refine ⟨?_, by rfl, by decide, by decide⟩
  have hlen : msgs.length > 0 := List.length_pos.mpr hne
  simp only [pollTick, if_pos hlen, pollFold_spec]
  rw [List.getLastD_eq_getLast?, List.getLast?_map, List.getLast?_eq_getLast _ hne]
  rfl

/-- Witness for C4: on the out-of-order two-message response the cursor
ends at the last element's timestamp `"10:01"`. -/
theorem claim_C4_witness :
    (pollTick "T1" false ⟨"", [], "", true, 3000, [], [], 0⟩
        (PollOutcome.success
          [⟨"a", true, "10:05"⟩, ⟨"b", true, "10:01"⟩])).since = "10:01" := by
  have h := claim_C4 "T1" false ⟨"", [], "", true, 3000, [], [], 0⟩
    [⟨"a", true, "10:05"⟩, ⟨"b", true, "10:01"⟩] (by decide)
  exact h.2.1

/-- C6: a failed poll tick only increments the error log counter: the
cursor, transcript, toasts (no user-facing notification) and interval
period are all unchanged, so the next tick proceeds from the same state
with the same interval. -/
theorem claim_C6 (teacherId : String) (cb : Bool) (st : ChatState) :
    (pollTick teacherId cb st PollOutcome.failure).since = st.since ∧
    (pollTick teacherId cb st PollOutcome.failure).transcript = st.transcript ∧
    (pollTick teacherId cb st PollOutcome.failure).toasts = st.toasts ∧
    (pollTick teacherId cb st PollOutcome.failure).intervalMs = st.intervalMs ∧
    (pollTick teacherId cb st PollOutcome.failure).pollActive = st.pollActive ∧
    (pollTick teacherId cb st PollOutcome.failure).logs = st.logs + 1 :=
  ⟨rfl, rfl, rfl, rfl, rfl, rfl⟩

/-- Outcome of the network interaction of one Send (the submit handler
of `initChat`, part_000, lines 49-83): `netError` when the fetch or
`response.json()` throws, `response ok err` for a well-formed JSON reply
with `success` flag `ok` and optional `error` string. -/
inductive SendOutcome where
  | netError
  | response (ok : Bool) (err : Option String)
deriving Repr, DecidableEq

/-- JS whitespace recognized by `String.prototype.trim` (restricted to
the ASCII white space actually typable in the chat input). -/
def jsWs (c : Char) : Bool :=
  c = ' ' || c = '\t' || c = '\n' || c = '\r'

/-- The JS `String.prototype.trim` used on the message input
(part_000, line 53): strips whitespace from both ends. -/
def jsTrim (s : String) : String :=
  String.mk (((s.toList.dropWhile jsWs).reverse.dropWhile jsWs).reverse)

/-- The error text shown for a failed send: `data.error` when present
and truthy, else the fallback (part_000, line 78). -/
def sendErrorText (err : Option String) : String :=
  match err with
  | some e => if e = "" then "Failed to send message" else e
  | none => "Failed to send message"

/-- The submit handler of `initChat` (part_000, lines 49-83): trims the
input; an empty trimmed message returns without a request; otherwise one
request `{teacher_id, message}` is issued, and on `success` the trimmed
message is appended as a sent bubble and the input cleared, while on
`netError` or `success:false` an error toast is shown and the state is
otherwise untouched. Returns the new state and the list of issued
request bodies. -/
def handleSend (teacherId : String) (st : ChatState) (o : SendOutcome) :
    ChatState × List (String × String) :=
  let message := jsTrim st.inputValue
  if message = "" then (st, [])
  else
    let reqs := [(teacherId, message)]
    match o with
    | SendOutcome.netError =>
        ({ st with toasts := st.toasts ++ [⟨"Error", "Failed to send message", "danger"⟩] }, reqs)
    | SendOutcome.response true _ =>
        ({ st with
            transcript := st.transcript ++ [⟨message, Direction.sent, none⟩],
            inputValue := "" }, reqs)
    | SendOutcome.response false err =>
        ({ st with toasts := st.toasts ++ [⟨"Error", sendErrorText err, "danger"⟩] }, reqs)

/-- Whether a Send outcome is a failure: a thrown network/parse error or
a well-formed response with `success` false. -/
def SendOutcome.isFailure : SendOutcome → Bool
  | SendOutcome.netError => true
  | SendOutcome.response ok _ => !ok

/-- C2: a Send whose input is non-empty after trimming issues exactly
one request carrying the teacher id and the trimmed text, and on a
success response appends exactly one sent bubble with that text and
clears the input; a Send whose input trims to empty issues no request
and changes nothing. -/
theorem claim_C2 (teacherId : String) (st : ChatState) (o : SendOutcome) :
    (jsTrim st.inputValue ≠ "" →
      (handleSend teacherId st o).2 = [(teacherId, jsTrim st.inputValue)] ∧
      (∀ err : Option String, o = SendOutcome.response true err →
        (handleSend teacherId st o).1.transcript =
            st.transcript ++ [⟨jsTrim st.inputValue, Direction.sent, none⟩] ∧
        (handleSend teacherId st o).1.inputValue = "")) ∧
    (jsTrim st.inputValue = "" → handleSend teacherId st o = (st, [])) := by
  constructor
  · intro hne
    constructor
    · cases o with
      | netError => simp [handleSend, hne]
      | response ok err => cases ok <;> simp [handleSend, hne]
    · intro err ho
      subst ho
      simp [handleSend, hne]
  · intro he
    simp [handleSend, he]

/-- Witness for C2: input `"  hi  "` with a success response issues one
request with text `"hi"`, appends one sent bubble and clears the input. -/
theorem claim_C2_witness :
    (handleSend "T1" ⟨"", [], "  hi  ", true, 3000, [], [], 0⟩
        (SendOutcome.response true none)).2 = [("T1", "hi")] ∧
    (handleSend "T1" ⟨"", [], "  hi  ", true, 3000, [], [], 0⟩
        (SendOutcome.response true none)).1.transcript =
      [⟨"hi", Direction.sent, none⟩] ∧
    (handleSend "T1" ⟨"", [], "  hi  ", true, 3000, [], [], 0⟩
        (SendOutcome.response true none)).1.inputValue = "" := by
  have h := claim_C2 "T1" ⟨"", [], "  hi  ", true, 3000, [], [], 0⟩
    (SendOutcome.response true none)
  have h1 := h.1 (by decide)
  have h2 := h1.2 none rfl
  exact ⟨h1.1.trans (by decide), h2.1.trans (by decide), h2.2⟩

/-- C3: every failing Send (network/parse error or `success:false`)
with a non-empty trimmed input appends one danger toast, leaves the
input and the transcript unchanged, and issues exactly the one original
request (no retry). -/
theorem claim_C3 (teacherId : String) (st : ChatState) (o : SendOutcome)
    (hne : jsTrim st.inputValue ≠ "") (hf : o.isFailure = true) :
    (handleSend teacherId st o).1.inputValue = st.inputValue ∧
    (handleSend teacherId st o).1.transcript = st.transcript ∧
    (∃ t : Toast, t.typ = "danger" ∧
      (handleSend teacherId st o).1.toasts = st.toasts ++ [t]) ∧
    (handleSend teacherId st o).2 = [(teacherId, jsTrim st.inputValue)] := by
  cases o with
  | netError =>
      refine ⟨?_, ?_, ⟨⟨"Error", "Failed to send message", "danger"⟩, rfl, ?_⟩, ?_⟩ <;>
        simp [handleSend, hne]
  | response ok err =>
      cases ok with
      | true => simp [SendOutcome.isFailure] at hf
      | false =>
          refine ⟨?_, ?_, ⟨⟨"Error", sendErrorText err, "danger"⟩, rfl, ?_⟩, ?_⟩ <;>
            simp [handleSend, hne]

/-- Witness for C3: a `success:false` response with error text
`"quota"` on input `"hi"` leaves input and transcript unchanged, adds
one danger toast and issues exactly one request. -/
theorem claim_C3_witness :
    (handleSend "T1" ⟨"", [], "hi", true, 3000, [], [], 0⟩
        (SendOutcome.response false (some "quota"))).1.inputValue = "hi" ∧
    (handleSend "T1" ⟨"", [], "hi", true, 3000, [], [], 0⟩
        (SendOutcome.response false (some "quota"))).1.transcript = [] ∧
    (handleSend "T1" ⟨"", [], "hi", true, 3000, [], [], 0⟩
        (SendOutcome.response false (some "quota"))).2 = [("T1", "hi")] := by
  have h := claim_C3 "T1" ⟨"", [], "hi", true, 3000, [], [], 0⟩
    (SendOutcome.response false (some "quota")) (by decide) (by decide)
  exact ⟨h.1.trans (by decide), h.2.1.trans (by decide), h.2.2.2.trans (by decide)⟩

/-- Events in the chat client's poll lifecycle: `start` is
`startPolling` registering the interval (part_000, lines 129-159),
`tick` is a firing of the interval with the given network outcome, and
`stop` is `stopPolling` clearing the interval (lines 161-166, also run
on `beforeunload`, line 169). -/
inductive ChatEvent where
  | start (lastTime : String)
  | tick (o : PollOutcome)
  | stop
deriving Repr, DecidableEq

/-- Whether an event is a fresh initialization of the poll cycle. -/
def ChatEvent.isStart : ChatEvent → Bool
  | ChatEvent.start _ => true
  | _ => false

/-- One step of the poll lifecycle. A `tick` only runs (and only issues
its network request) when the interval handle is registered; `stop`
clears the handle, after which the interval no longer fires. The second
component counts the poll requests issued by the step. -/
def chatStep (teacherId : String) (cb : Bool)
    (st : ChatState) (e : ChatEvent) : ChatState × Nat :=
  match e with
  | ChatEvent.start lastTime =>
      ({ st with pollActive := true, since := lastTime, intervalMs := 3000 }, 0)
  | ChatEvent.tick o =>
      if st.pollActive then (pollTick teacherId cb st o, 1) else (st, 0)
  | ChatEvent.stop => ({ st with pollActive := false }, 0)

/-- Running a sequence of lifecycle events, accumulating the number of
poll requests issued. -/
def chatRun (teacherId : String) (cb : Bool) :
    ChatState → List ChatEvent → ChatState × Nat
  | st, [] => (st, 0)
  | st, e :: es =>
      let p := chatStep teacherId cb st e
      let q := chatRun teacherId cb p.1 es
      (q.1, p.2 + q.2)

theorem chatRun_inactive (teacherId : String) (cb : Bool) :
    ∀ (evs : List ChatEvent) (st : ChatState),
      st.pollActive = false → (∀ e ∈ evs, e.isStart = false) →
      (chatRun teacherId cb st evs).2 = 0 := by
  intro evs
  induction evs with
  | nil => intro st _ _; rfl
  | cons e es ih =>
      intro st hin hns
      have hse : e.isStart = false := hns e (List.mem_cons_self e es)
      have hrest : ∀ x ∈ es, x.isStart = false := fun x hx => hns x (List.mem_cons_of_mem e hx)
      cases e with
      | start lt => simp [ChatEvent.isStart] at hse
      | tick o =>
          have hstep : chatStep teacherId cb st (ChatEvent.tick o) = (st, 0) := by
            simp [chatStep, hin]
          simp only [chatRun, hstep]
          simpa using ih st hin hrest
      | stop =>
          simp only [chatRun, chatStep]
          have : ({ st with pollActive := false } : ChatState).pollActive = false := rfl
          simpa using ih { st with pollActive := false } this hrest

/-- C5: once `stopPolling` has run, no later event issues a poll
request — even ticks of a would-be interval — until a fresh `start`
(re-initialization) occurs: every event sequence without a `start`,
run from the stopped state, issues zero requests. -/
theorem claim_C5 (teacherId : String) (cb : Bool) (st : ChatState)
    (evs : List ChatEvent) (hns : ∀ e ∈ evs, e.isStart = false) :
    (chatStep teacherId cb st ChatEvent.stop).1.pollActive = false ∧
    (chatStep teacherId cb st ChatEvent.stop).2 = 0 ∧
    (chatRun teacherId cb (chatStep teacherId cb st ChatEvent.stop).1 evs).2 = 0 := by
  refine ⟨rfl, rfl, ?_⟩
  exact chatRun_inactive teacherId cb evs _ rfl hns

/-- Witness for C5: after stopping from an active state, two subsequent
interval firings and another stop issue no request. -/
theorem claim_C5_witness :
    (chatRun "T1" true
      (chatStep "T1" true ⟨"", [], "", true, 3000, [], [], 0⟩ ChatEvent.stop).1
      [ChatEvent.tick (PollOutcome.success [⟨"x", false, "10:00"⟩]),
       ChatEvent.tick PollOutcome.failure, ChatEvent.stop]).2 = 0 := by
  have h := claim_C5 "T1" true ⟨"", [], "", true, 3000, [], [], 0⟩
    [ChatEvent.tick (PollOutcome.success [⟨"x", false, "10:00"⟩]),
     ChatEvent.tick PollOutcome.failure, ChatEvent.stop] (by decide)
  exact h.2.2

/-- A raster canvas surface: backing-store dimensions and the pixel
grid (RGBA value at each in-bounds coordinate). -/
structure Canvas where
  width : Nat
  height : Nat
  pix : Nat → Nat → Nat

/-- The snapshot returned by `ctx.getImageData(0, 0, w, h)`
(part_001, line 52): the rectangle of pixels together with its
dimensions. -/
structure ImageData where
  width : Nat
  height : Nat
  pix : Nat → Nat → Nat

/-- `ctx.getImageData(0, 0, canvas.width, canvas.height)`: captures the
whole current surface. -/
def getImageData (c : Canvas) : ImageData :=
  ⟨c.width, c.height, c.pix⟩

/-- Assigning `canvas.width` / `canvas.height` (part_001, lines 53-54)
resets the backing store: a blank surface of the new dimensions. -/
def blankCanvas (w h : Nat) : Canvas :=
  ⟨w, h, fun _ _ => 0⟩

/-- `ctx.putImageData(img, 0, 0)` (part_001, line 59): writes the raw
snapshot pixels back at the origin, clipped to the canvas bounds,
without rescaling. -/
def putImageData (c : Canvas) (img : ImageData) : Canvas :=
  { c with
    pix := fun x y =>
      if x < img.width ∧ y < img.height ∧ x < c.width ∧ y < c.height then
        img.pix x y
      else c.pix x y }

/-- The container's bounding rectangle used by `resize`. -/
structure Rect where
  width : Nat
  height : Nat

/-- `DrawingCanvas.resize` (part_001, lines 48-60): capture the whole
surface, set the canvas to the container's width and at least the
300-pixel minimum height (which blanks it), and restore the captured
raster at the origin. -/
def DrawingCanvas.resize (c : Canvas) (rect : Rect) : Canvas :=
  let imageData := getImageData c
  let resized := blankCanvas rect.width (max 300 rect.height)
  putImageData resized imageData

/-- C7: resizing preserves every pixel in the top-left region common to
the old and new dimensions: for x below both widths and y below both
heights, the pixel after `resize` equals the pixel before. -/
theorem claim_C7 (c : Canvas) (rect : Rect) (x y : Nat)
    (hx : x < min c.width (DrawingCanvas.resize c rect).width)
    (hy : y < min c.height (DrawingCanvas.resize c rect).height) :
    (DrawingCanvas.resize c rect).pix x y = c.pix x y := by
  have hx1 : x < c.width := lt_of_lt_of_le hx (min_le_left _ _)
  have hx2 : x < rect.width := lt_of_lt_of_le hx (min_le_right _ _)
  have hy1 : y < c.height := lt_of_lt_of_le hy (min_le_left _ _)
  have hy2 : y < max 300 rect.height := lt_of_lt_of_le hy (min_le_right _ _)
  show (putImageData (blankCanvas rect.width (max 300 rect.height)) (getImageData c)).pix x y
      = c.pix x y
  simp only [putImageData, getImageData, blankCanvas]
  rw [if_pos ⟨hx1, hy1, hx2, hy2⟩]

/-- Witness for C7: shrinking a 4x4 canvas holding pixel value
x + 10*y to a width-2 container preserves the pixel at (1, 3). -/
theorem claim_C7_witness :
    1 < min 4 (DrawingCanvas.resize ⟨4, 4, fun x y => x + 10 * y⟩ ⟨2, 5⟩).width ∧
    3 < min 4 (DrawingCanvas.resize ⟨4, 4, fun x y => x + 10 * y⟩ ⟨2, 5⟩).height ∧
    (DrawingCanvas.resize ⟨4, 4, fun x y => x + 10 * y⟩ ⟨2, 5⟩).pix 1 3 = 31 := by
  refine ⟨by decide, by decide, ?_⟩
  have h := claim_C7 ⟨4, 4, fun x y => x + 10 * y⟩ ⟨2, 5⟩ 1 3 (by decide) (by decide)
  exact h.trans (by decide)

/-- The 2D-context state relevant to stroke width. -/
structure DrawCtx where
  lineWidth : ℚ
deriving Repr, DecidableEq

/-- The force handling shared by `handleTouchStart` (part_001,
lines 92-94) and `handleTouchMove` (lines 109-111): `if (touch.force)`
is a JS truthiness test, so only a present and nonzero force rescales
the context line width to base × force × 2; otherwise the context is
left as it was. -/
def touchForceUpdate (base : ℚ) (ctx : DrawCtx) (force : Option ℚ) : DrawCtx :=
  match force with
  | some f => if f = 0 then ctx else { lineWidth := base * f * 2 }
  | none => ctx

/-- The line widths used for the successive segments of one touch
stroke: the start event's force is applied first (handleTouchStart),
then each move event applies its force and draws a segment with the
context's current line width (handleTouchMove, lines 105-114). -/
def touchSequenceWidths (base : ℚ) (ctx0 : DrawCtx)
    (startForce : Option ℚ) (moveForces : List (Option ℚ)) : List ℚ :=
  let ctx1 := touchForceUpdate base ctx0 startForce
  (moveForces.foldl
    (fun acc f =>
      let c := touchForceUpdate base acc.1 f
      (c, acc.2 ++ [c.lineWidth]))
    (ctx1, ([] : List ℚ))).2

/-- Counterexample to C8 as stated: with base width 3, a touch start
reporting force 4/5 followed by a move reporting no force draws that
no-force segment with width 24/5, not the base width 3 — the scaled
width persists instead of resetting. -/
theorem claim_C8_counterexample :
    touchSequenceWidths 3 ⟨3⟩ (some (4/5)) [none] = [24/5] ∧
    ((24 / 5 : ℚ) ≠ 3) := by
  constructor
  · show (touchForceUpdate 3 (touchForceUpdate 3 ⟨3⟩ (some (4/5))) none).lineWidth :: [] = [24/5]
    norm_num [touchForceUpdate]
  · norm_num

/-- C8 (amended): an event reporting a nonzero force sets the context
line width to base × force × 2; an event reporting no force, or a zero
force, leaves the context line width unchanged — so the scaled width
persists into later segments until the next nonzero force reading, and
a no-force segment uses the base width only if no scaled width is in
effect. -/
theorem claim_C8 (base : ℚ) (ctx : DrawCtx) (f : ℚ) (hf : f ≠ 0) :
    (touchForceUpdate base ctx (some f)).lineWidth = base * f * 2 ∧
    touchForceUpdate base ctx none = ctx ∧
    touchForceUpdate base ctx (some 0) = ctx := by
  refine ⟨?_, rfl, ?_⟩
  · simp [touchForceUpdate, hf]
  · simp [touchForceUpdate]

/-- Witness for C8 (amended): base 3 and force 1/2 give width 3, and
no-force and zero-force events leave a context of width 7 unchanged. -/
theorem claim_C8_witness :
    (touchForceUpdate 3 ⟨7⟩ (some (1/2))).lineWidth = 3 ∧
    touchForceUpdate 3 ⟨7⟩ none = ⟨7⟩ ∧
    touchForceUpdate 3 ⟨7⟩ (some 0) = ⟨7⟩ := by
  have h := claim_C8 3 ⟨7⟩ (1/2) (by norm_num)
  exact ⟨h.1.trans (by norm_num), h.2.1, h.2.2⟩

/-- The serialization of one text character performed by the
`escapeHtml` helper (part_000, lines 332-336): assigning `textContent`
and reading `innerHTML` makes the browser emit the text node with the
markup-significant characters `&`, `<`, `>` (and non-breaking space)
replaced by their character entities. -/
def escapeChar (c : Char) : List Char :=
  if c = '&' then ['&', 'a', 'm', 'p', ';']
  else if c = '<' then ['&', 'l', 't', ';']
  else if c = '>' then ['&', 'g', 't', ';']
  else if c = Char.ofNat 160 then ['&', 'n', 'b', 's', 'p', ';']
  else [c]

/-- Character-list form of `escapeHtml`. -/
def escapeList : List Char → List Char
  | [] => []
  | c :: rest => escapeChar c ++ escapeList rest

/-- `escapeHtml` (part_000, lines 332-336) as a string function. -/
def escapeHtml (s : String) : String :=
  String.mk (escapeList s.toList)

/-- The HTML parser's entity decoding of text content: the inverse
direction used to state that escaped output denotes exactly the
original text. -/
def unescapeList : List Char → List Char
  | [] => []
  | c :: r =>
    if c = '&' then
      if r.take 4 = ['a', 'm', 'p', ';'] then '&' :: unescapeList (r.drop 4)
      else if r.take 3 = ['l', 't', ';'] then '<' :: unescapeList (r.drop 3)
      else if r.take 3 = ['g', 't', ';'] then '>' :: unescapeList (r.drop 3)
      else if r.take 5 = ['n', 'b', 's', 'p', ';'] then
        Char.ofNat 160 :: unescapeList (r.drop 5)
      else c :: unescapeList r
    else c :: unescapeList r
termination_by l => l.length
decreasing_by
  all_goals simp [List.length_drop]
  all_goals omega

/-- The rendered bubble markup built by `addMessage` (part_000,
lines 117-120): the message-content element holds the escaped text, the
message-time element the formatted time string. -/
structure RenderedMessage where
  contentHtml : String
  timeHtml : String

/-- `addMessage`: the message-content markup is `escapeHtml(text)`. -/
def renderMessage (text : String) (timeStr : String) : RenderedMessage :=
  ⟨escapeHtml text, timeStr⟩

theorem unescape_escape : ∀ l : List Char, unescapeList (escapeList l) = l := by
  intro l
  induction l with
  | nil => simp [escapeList, unescapeList]
  | cons c rest ih =>
      by_cases h1 : c = '&'
      · subst h1
        show unescapeList (escapeChar '&' ++ escapeList rest) = _
        rw [show escapeChar '&' = ['&', 'a', 'm', 'p', ';'] from rfl]
        simp only [List.cons_append, List.nil_append]
        rw [unescapeList]
        simp [ih]
      · by_cases h2 : c = '<'
        · subst h2
          show unescapeList (escapeChar '<' ++ escapeList rest) = _
          rw [show escapeChar '<' = ['&', 'l', 't', ';'] from rfl]
          simp only [List.cons_append, List.nil_append]
          rw [unescapeList]
          simp [ih, List.take]
        · by_cases h3 : c = '>'
          · subst h3
            show unescapeList (escapeChar '>' ++ escapeList rest) = _
            rw [show escapeChar '>' = ['&', 'g', 't', ';'] from rfl]
            simp only [List.cons_append, List.nil_append]
            rw [unescapeList]
            simp [ih, List.take]
          · by_cases h4 : c = Char.ofNat 160
            · subst h4
              show unescapeList (escapeChar (Char.ofNat 160) ++ escapeList rest) = _
              rw [show escapeChar (Char.ofNat 160) = ['&', 'n', 'b', 's', 'p', ';'] from rfl]
              simp only [List.cons_append, List.nil_append]
              rw [unescapeList]
              simp [ih, List.take]
            · show unescapeList (escapeChar c ++ escapeList rest) = _
              rw [show escapeChar c = [c] by simp [escapeChar, h1, h2, h3, h4]]
              simp only [List.cons_append, List.nil_append]
              rw [unescapeList]
              simp [h1, ih]

theorem escapeList_no_raw : ∀ l : List Char,
    ('<' ∉ escapeList l) ∧ ('>' ∉ escapeList l) := by
  intro l
  induction l with
  | nil => simp [escapeList]
  | cons c rest ih =>
      rw [escapeList]
      by_cases h1 : c = '&'
      · subst h1; simp [escapeChar, ih.1, ih.2]
      · by_cases h2 : c = '<'
        · subst h2; simp [escapeChar, ih.1, ih.2]
        · by_cases h3 : c = '>'
          · subst h3; simp [escapeChar, ih.1, ih.2]
          · by_cases h4 : c = Char.ofNat 160
            · subst h4; simp [escapeChar, ih.1, ih.2]
            · simp [escapeChar, h1, h2, h3, h4, ih.1, ih.2]
              exact ⟨fun he => h2 he.symm, fun he => h3 he.symm⟩

/-- C9: the rendered message-content markup of every appended bubble is
the HTML-escaped form of the raw text: the content element holds
`escapeHtml(text)`, that markup contains no raw angle bracket, and the
parser's entity decoding maps it back to exactly the original text (so
`<`, `>` and `&` in a message never act as raw markup). -/
theorem claim_C9 (text timeStr : String) :
    (renderMessage text timeStr).contentHtml = escapeHtml text ∧
    ('<' ∉ (escapeHtml text).toList) ∧
    ('>' ∉ (escapeHtml text).toList) ∧
    unescapeList (escapeHtml text).toList = text.toList := by
  refine ⟨rfl, ?_, ?_, ?_⟩
  · exact (escapeList_no_raw text.toList).1
  · exact (escapeList_no_raw text.toList).2
  · exact unescape_escape text.toList

/-- A push payload that parsed as a JSON object: each field is present
or absent, mirroring the keys `event.data.json()` may supply
(service-worker.js, lines 86-87). The `data` field is kept as an opaque
serialized value; `actions` as a list of (action, title) pairs. -/
structure PushJson where
  title : Option String
  body : Option String
  icon : Option String
  badge : Option String
  tag : Option String
  dataVal : Option String
  actions : Option (List (String × String))
deriving Repr, DecidableEq

/-- The merged notification data: the defaults of service-worker.js
lines 74-81 with any parsed fields spread over them (line 87). The
`dataVal` none stands for the default empty object. -/
structure PushData where
  title : String
  body : String
  icon : String
  badge : String
  tag : String
  dataVal : Option String
  actions : Option (List (String × String))
deriving Repr, DecidableEq

/-- The default notification data (service-worker.js, lines 74-81). -/
def pushDefaults : PushData :=
  { title := "School Portal"
    body := "You have a new notification"
    icon := "/static/icons/icon-192.png"
    badge := "/static/icons/badge-72.png"
    tag := "school-notification"
    dataVal := none
    actions := none }

/-- The object spread `{ ...data, ...pushData }` (service-worker.js,
line 87): a key present in the parsed payload overrides the default,
an absent key keeps it. -/
def mergePush (j : PushJson) : PushData :=
  { title := j.title.getD pushDefaults.title
    body := j.body.getD pushDefaults.body
    icon := j.icon.getD pushDefaults.icon
    badge := j.badge.getD pushDefaults.badge
    tag := j.tag.getD pushDefaults.tag
    dataVal := j.dataVal
    actions := j.actions }

/-- The options object passed to `showNotification`
(service-worker.js, lines 93-105). The `||` fallbacks re-apply the
defaults when the merged string field is empty (the only falsy string);
`data.data || \x7b\x7d` falls back only for an absent/null object, and
`data.actions || [...]` only for absent/null actions, since objects and
arrays are truthy. -/
structure NotifOptions where
  body : String
  icon : String
  badge : String
  tag : String
  dataVal : Option String
  vibrate : List Nat
  requireInteraction : Bool
  actions : List (String × String)
deriving Repr, DecidableEq

/-- Builds the `options` literal of service-worker.js lines 93-105. -/
def buildOptions (d : PushData) : NotifOptions :=
  { body := d.body
    icon := if d.icon = "" then pushDefaults.icon else d.icon
    badge := if d.badge = "" then pushDefaults.badge else d.badge
    tag := if d.tag = "" then pushDefaults.tag else d.tag
    dataVal := d.dataVal
    vibrate := [100, 50, 100]
    requireInteraction := true
    actions := d.actions.getD [("view", "View"), ("dismiss", "Dismiss")] }

/-- The push event's payload: the raw text (`event.data.text()`) and,
when `event.data.json()` succeeds, the parsed object. -/
structure PushPayload where
  raw : String
  parsed : Option PushJson
deriving Repr, DecidableEq

/-- The push listener (service-worker.js, lines 71-110): start from the
defaults; with a payload, spread the parsed JSON over them, or on a
parse failure replace only the body with the raw text; finally show one
notification with the resulting title and options. Returns the list of
notifications shown. -/
def pushHandler (p : Option PushPayload) : List (String × NotifOptions) :=
  let d :=
    match p with
    | none => pushDefaults
    | some pl =>
        match pl.parsed with
        | some j => mergePush j
        | none => { pushDefaults with body := pl.raw }
  [(d.title, buildOptions d)]

/-- C10: every push event shows exactly one notification; with no
payload it uses the full defaults; with a payload that is not valid
JSON it keeps the default title School Portal and uses the raw payload
text as the body; with a JSON payload the parsed fields override the
defaults (the shown title is the payload title when present, and the
shown body the payload body when present). -/
theorem claim_C10 (p : Option PushPayload) (raw : String) (j : PushJson) :
    (pushHandler p).length = 1 ∧
    pushHandler none = [("School Portal", buildOptions pushDefaults)] ∧
    pushHandler (some ⟨raw, none⟩) =
      [("School Portal", buildOptions { pushDefaults with body := raw })] ∧
    pushHandler (some ⟨raw, some j⟩) =
      [(j.title.getD "School Portal", buildOptions (mergePush j))] ∧
    (buildOptions (mergePush j)).body = j.body.getD "You have a new notification" := by
  refine ⟨?_, rfl, rfl, rfl, rfl⟩
  cases p with
  | none => rfl
  | some pl =>
      cases hpl : pl.parsed with
      | none => simp [pushHandler, hpl]
      | some j2 => simp [pushHandler, hpl]
